import Mathlib

/-
  Verification development for the air-quality dashboard `app.py`
  (repository ClassProject).

  The Python source is shallowly embedded:
  * pandas tables become lists of records,
  * numeric values are rationals (ℚ),
  * a missing value (NaN, or an absent cell) is `none`,
  * the Streamlit panels become pure functions from the loaded table to the
    data they render.

  Line references in the doc comments point into `app.py`.
-/

/- ## Timestamp construction (`load_data`, app.py lines 34-37) -/

/-- Python `str.zfill` restricted to ASCII strings: pad with leading zeros
to width `w`.  The code applies it with `w = 2` to the hour field. -/
def zfill (w : Nat) (s : String) : String :=
  if w ≤ s.data.length then s
  else ⟨List.replicate (w - s.data.length) '0' ++ s.data⟩

/-- An hourly-resolution instant, the result of `pd.to_datetime` with format
`%Y%m%d%H`. -/
structure DateTime where
  year : Nat
  month : Nat
  day : Nat
  hour : Nat
deriving DecidableEq, Repr

/-- Gregorian leap-year rule (used by the datetime validation). -/
def isLeap (y : Nat) : Bool :=
  (y % 4 = 0 && y % 100 ≠ 0) || y % 400 = 0

/-- Days in a month, as validated by `datetime`. -/
def daysInMonth (y m : Nat) : Nat :=
  if m = 2 then (if isLeap y then 29 else 28)
  else if m = 4 ∨ m = 6 ∨ m = 9 ∨ m = 11 then 30
  else 31

/-- Value of a decimal digit character, `none` on a non-digit. -/
def digitVal (c : Char) : Option Nat :=
  if '0' ≤ c ∧ c ≤ '9' then some (c.toNat - '0'.toNat) else none

/-- Parse a nonempty all-digit character list as a natural number. -/
def digitsToNat : List Char → Nat → Option Nat
  | [], acc => some acc
  | c :: cs, acc =>
    match digitVal c with
    | some d => digitsToNat cs (acc * 10 + d)
    | none => none

/-- Parse a fixed-width decimal field. -/
def parseField (cs : List Char) : Option Nat :=
  match cs with
  | [] => none
  | _ => digitsToNat cs 0

/-- `pd.to_datetime(s, format='%Y%m%d%H')`: a 10-character digit string is
split 4/2/2/2 into year, month, day, hour, and the calendar fields are
validated; anything else fails to parse. -/
def parseYmdH (s : String) : Option DateTime :=
  let cs := s.data
  if cs.length = 10 then
    match parseField (cs.take 4), parseField ((cs.drop 4).take 2),
        parseField ((cs.drop 6).take 2), parseField ((cs.drop 8).take 2) with
    | some y, some m, some d, some h =>
      if 1 ≤ m ∧ m ≤ 12 ∧ 1 ≤ d ∧ d ≤ daysInMonth y m ∧ h ≤ 23 then
        some ⟨y, m, d, h⟩
      else none
    | _, _, _, _ => none
  else none

/-- app.py lines 34-37: `datetime_obj` is built by concatenating the `date`
column with the 2-digit zero-padded `hour` column and parsing the result
with format `%Y%m%d%H`. -/
def makeTimestamp (date hour : Nat) : Option DateTime :=
  parseYmdH (toString date ++ zfill 2 (toString hour))

/- ## The wide input table and the long (melted) table (app.py lines 55-67) -/

/-- One row of the cleaned CSV: `(date, hour, type)` metadata plus one cell
per city column.  A `none` cell is a NaN in the source file. -/
structure WideRow where
  date : Nat
  hour : Nat
  type : String
  cells : List (String × Option ℚ)
deriving DecidableEq, Repr

/-- One row of `df_long`: `(datetime_obj, City, type, Value)`. -/
structure LongRecord where
  timestamp : Option DateTime
  city : String
  type : String
  value : Option ℚ
deriving DecidableEq, Repr

/-- `df.melt` restricted to one wide row: one long record per city column.
The lookup models reading that row's cell for the city column (`none` both
for NaN and for a city absent from the row). -/
def meltRow (cityCols : List String) (r : WideRow) : List LongRecord :=
  cityCols.map fun c =>
    ⟨makeTimestamp r.date r.hour, c, r.type, (r.cells.lookup c).join⟩

/-- app.py lines 62-67: `df_long = df.melt(id_vars=metadata, value_vars=city_cols)`
— every (row, city column) pair contributes exactly one long record. -/
def melt (cityCols : List String) (rows : List WideRow) : List LongRecord :=
  rows.flatMap (meltRow cityCols)

/-- The pivot key predicate: a long record matching a given
`(timestamp, city, type)` triple. -/
def keyMatch (ts : Option DateTime) (c ty : String) (lr : LongRecord) : Bool :=
  decide (lr.timestamp = ts) && decide (lr.city = c) && decide (lr.type = ty)

/-- app.py lines 71-75: the cell of `df_pivot` at row `(timestamp, city)` and
column `type`.  `pivot_table` aggregates the matching long values with the
default `mean`, NaN values dropped; an empty group is a missing cell. -/
def pivotCell (long : List LongRecord) (ts : Option DateTime) (c ty : String) :
    Option ℚ :=
  let vals := (long.filter (keyMatch ts c ty)).filterMap (fun lr => lr.value)
  if vals.isEmpty then none else some (vals.sum / vals.length)

/- ## The pivoted table as consumed by the panels -/

/-- One row of `df_pivot` after `reset_index`: `(datetime_obj, City)` plus one
cell per measurement-type column.  A `(key, none)` entry is a NaN cell; a key
absent from `cells` is a column absent from the table. -/
structure PivotRow where
  timestamp : Option DateTime
  city : String
  cells : List (String × Option ℚ)
deriving DecidableEq, Repr

/-- The column set of the pivoted table (the measurement types). -/
def pivotColumns (tbl : List PivotRow) : List String :=
  (tbl.flatMap fun r => r.cells.map Prod.fst).dedup

/-- Read one cell of a pivot row (`none` for NaN or absent column). -/
def lookupCell (r : PivotRow) (f : String) : Option ℚ :=
  (r.cells.lookup f).join

/- ## Sidebar advisory rule engine (app.py lines 86-110) -/

/-- `pandas.Series.get(key, default)`: an absent key yields the default
(wrapped as a present value), a present key yields its cell, NaN included. -/
def seriesGet (r : PivotRow) (key : String) (dflt : ℚ) : Option ℚ :=
  match r.cells.lookup key with
  | none => some dflt
  | some v => v

/-- Sort key for `sort_values('datetime_obj')`: present timestamps in
chronological order, NaT last (pandas behaviour). -/
def tsOrdinal : Option DateTime → Nat × Nat
  | some d => (0, ((d.year * 12 + d.month) * 31 + d.day) * 24 + d.hour)
  | none => (1, 0)

/-- Boolean comparison of sort keys (lexicographic). -/
def tsLe (a b : Option DateTime) : Bool :=
  let ka := tsOrdinal a
  let kb := tsOrdinal b
  decide (ka.1 < kb.1) || (decide (ka.1 = kb.1) && decide (ka.2 ≤ kb.2))

/-- Stable insertion of a pivot row into a timestamp-sorted list. -/
def insertByTs (r : PivotRow) : List PivotRow → List PivotRow
  | [] => [r]
  | x :: xs =>
    if tsLe x.timestamp r.timestamp then x :: insertByTs r xs else r :: x :: xs

/-- Stable sort of pivot rows by timestamp (models `sort_values('datetime_obj')`). -/
def sortByTs : List PivotRow → List PivotRow
  | [] => []
  | r :: rs => insertByTs r (sortByTs rs)

/-- app.py line 86: the city's rows, sorted by timestamp, last one taken
(`.iloc[-1]`); `none` when the city has no rows (where the source would
raise an index error). -/
def latestRow (tbl : List PivotRow) (city : String) : Option PivotRow :=
  (sortByTs (tbl.filter fun r => decide (r.city = city))).getLast?

/-- app.py line 89: `cur_aqi = latest_df.get('AQI', 0)` — the outer `Option`
is definedness of the latest row, the inner one is the NaN-ness of the
reading itself. -/
def curAqi (tbl : List PivotRow) (city : String) : Option (Option ℚ) :=
  (latestRow tbl city).map fun r => seriesGet r "AQI" 0

/-- The advisory produced by app.py lines 97-110.  `tier` numbers the six
message levels 0-5 in the order the cascading `if` chain assigns them
(the spec's severity tier); `text`, `color` are the values of `adv_text`,
`adv_color`; `dust` records whether the dust-storm suffix was appended. -/
structure Advisory where
  tier : Nat
  text : String
  color : String
  dust : Bool
deriving DecidableEq, Repr

/-- app.py lines 97-110: the cascading threshold chain (each later `if`
overrides the previous text/color), followed by the dust-storm heuristic
`pm10 > 150 and pm10 / (pm25 + 1) > 2` which only appends to the message. -/
def advise (aqi pm10 pm25 : ℚ) : Advisory :=
  let a : Nat × String × String := (0, "空气很好，适合户外活动！🏃", "green")
  let a := if 50 < aqi then (1, "空气尚可，敏感人群注意。", "orange") else a
  let a := if 100 < aqi then (2, "轻度污染，建议佩戴口罩。😷", "orange") else a
  let a := if 150 < aqi then (3, "中度污染，减少户外停留。🏠", "red") else a
  let a := if 200 < aqi then (4, "重度污染，严禁户外运动！🚫", "red") else a
  let a := if 300 < aqi then (5, "严重污染，开启空气净化器！🌪️", "red") else a
  let d : Bool := decide (150 < pm10) && decide (2 < pm10 / (pm25 + 1))
  { tier := a.1
    text := a.2.1 ++ (if d then "\n\n(检测到沙尘天气特征，请注意防风防沙)" else "")
    color := a.2.2
    dust := d }

/- ## Pie-chart level function (app.py lines 237-243) -/

/-- app.py `get_level`: the six-way AQI banding used by the distribution
pie chart. -/
def get_level (aqi : ℚ) : String :=
  if aqi ≤ 50 then "优"
  else if aqi ≤ 100 then "良"
  else if aqi ≤ 150 then "轻度"
  else if aqi ≤ 200 then "中度"
  else if aqi ≤ 300 then "重度"
  else "严重"

/- ## Cluster labeling rules (app.py lines 292-314) -/

/-- app.py `get_cluster_name`: maps a centroid row (feature name → mean value,
`row.get(f, 0)` semantics) to a category through an ordered rule list,
first match wins. -/
def get_cluster_name (row : List (String × ℚ)) : String :=
  let aqi := (row.lookup "AQI").getD 0
  let pm10 := (row.lookup "PM10").getD 0
  let pm25 := (row.lookup "PM2.5").getD 0
  let so2 := (row.lookup "SO2").getD 0
  let no2 := (row.lookup "NO2").getD 0
  let co := (row.lookup "CO").getD 0
  let ratio_pm := pm10 / (pm25 + 1 / 10)
  if aqi < 35 then "🍃 极优生态型"
  else if 200 < pm10 ∧ 5 / 2 < ratio_pm then "🏜️ 强沙尘暴型"
  else if 120 < pm10 ∧ 2 < ratio_pm then "🌪️ 浮尘扬沙型"
  else if 25 < so2 then "🏭 重工业燃煤型"
  else if 15 < so2 ∧ 1 < co then "🏗️ 轻工业/取暖型"
  else if 45 < no2 then "🚗 交通拥堵型"
  else if 200 < aqi then "🔴 极重复合污染"
  else if 150 < aqi then "🟣 重度雾霾型"
  else if 100 < aqi then "🟠 轻度雾霾型"
  else if aqi < 70 then "🌿 清洁宜居型"
  else "🔵 综合过渡型"

/- ## Cluster-and-Label pipeline (app.py lines 273-320) -/

/-- app.py line 273: the requested clustering feature list. -/
def ml_features_all : List String := ["AQI", "PM2.5", "PM10", "CO", "NO2", "SO2"]

/-- app.py line 274: `ml_features = [f for f in ml_features if f in df_pivot.columns]`
— the requested features that resolve against the pivoted table's columns. -/
def resolvedFeatures (tbl : List PivotRow) : List String :=
  ml_features_all.filter fun f => decide (f ∈ pivotColumns tbl)

/-- Mean of a list of rationals (0 on the empty list, which never reaches the
callers below unguarded). -/
def meanQ (l : List ℚ) : ℚ := if l.isEmpty then 0 else l.sum / l.length

/-- Population variance (ddof = 0), as used by `StandardScaler`. -/
def varQ (l : List ℚ) : ℚ := meanQ (l.map fun x => (x - meanQ l) * (x - meanQ l))

/-- The cities of the pivoted table, in order of first appearance.  (pandas
`groupby` additionally sorts the keys; no claim below depends on the order.) -/
def cities (tbl : List PivotRow) : List String :=
  (tbl.map PivotRow.city).dedup

/-- `df_pivot.groupby('City')[f].mean()` for one city and one feature: the
mean of the non-NaN cells (pandas `mean` skips NaN), `none` when the city
has no reading at all for the feature. -/
def featMean (tbl : List PivotRow) (c f : String) : Option ℚ :=
  let vals := (tbl.filter fun r => decide (r.city = c)).filterMap fun r => lookupCell r f
  if vals.isEmpty then none else some (vals.sum / vals.length)

/-- One city's aggregated row of `df_pivot.groupby('City')[ml_features].mean()`. -/
def cityVector (tbl : List PivotRow) (feats : List String) (c : String) :
    List (Option ℚ) :=
  feats.map (featMean tbl c)

/-- Turn a row of optional means into a complete row, `none` if any entry is
missing — the membership test behind `.dropna()`. -/
def seqOption : List (Option ℚ) → Option (List ℚ)
  | [] => some []
  | none :: _ => none
  | some x :: xs => (seqOption xs).map (x :: ·)

/-- app.py line 277: `df_city_features = df_pivot.groupby('City')[ml_features].mean().dropna()`
— one complete mean-feature row per retained city; a city whose aggregated
row has any missing feature is dropped. -/
def retainedCities (tbl : List PivotRow) (feats : List String) :
    List (String × List ℚ) :=
  (cities tbl).filterMap fun c => (seqOption (cityVector tbl feats c)).map ((c, ·))

/-- The j-th column of a row-major matrix. -/
def colVals (rows : List (List ℚ)) (j : Nat) : List ℚ :=
  rows.map fun v => v.getD j 0

/-- Model of `StandardScaler().fit_transform` followed by Euclidean K-Means,
expressed as a weighted squared metric on the ORIGINAL feature rows: scaling
every column to zero mean and unit variance and then taking squared Euclidean
distances is the same as weighting the squared coordinate differences by
`1 / variance` (the mean shift cancels in every difference, and per-coordinate
affine maps commute with the centroid means K-Means computes).  A zero-variance
column gets weight 1, exactly as `StandardScaler` sets `scale_ = 1` there. -/
def scaleWeights (rows : List (List ℚ)) (d : Nat) : List ℚ :=
  (List.range d).map fun j =>
    let v := varQ (colVals rows j)
    if v = 0 then 1 else 1 / v

/-- Squared distance between feature rows under the per-column weights. -/
def sqDistW (w p q : List ℚ) : ℚ :=
  ((w.zip (p.zip q)).map fun t => t.1 * ((t.2.1 - t.2.2) * (t.2.1 - t.2.2))).sum

/-- Index of the first minimum of `f` over a list (`np.argmin` tie-breaking). -/
def argminAux (f : List ℚ → ℚ) : List (List ℚ) → Nat → Nat → ℚ → Nat
  | [], _, bi, _ => bi
  | c :: cs, i, bi, bv =>
    if f c < bv then argminAux f cs (i + 1) i (f c)
    else argminAux f cs (i + 1) bi bv

/-- First index attaining the minimum of `f`. -/
def argminIdx (f : List ℚ → ℚ) : List (List ℚ) → Nat
  | [] => 0
  | c :: cs => argminAux f cs 1 0 (f c)

/-- K-Means assignment step: each point goes to its nearest centroid. -/
def assignLabels (w : List ℚ) (cs pts : List (List ℚ)) : List Nat :=
  pts.map fun p => argminIdx (fun c => sqDistW w p c) cs

/-- Dimension-wise mean of a set of rows. -/
def meanVec (d : Nat) (pts : List (List ℚ)) : List ℚ :=
  (List.range d).map fun j => meanQ (colVals pts j)

/-- The points currently assigned to cluster `i`. -/
def membersOf (pts : List (List ℚ)) (labels : List Nat) (i : Nat) :
    List (List ℚ) :=
  ((pts.zip labels).filter fun pl => decide (pl.2 = i)).map Prod.fst

/-- K-Means update step: every centroid moves to the mean of its members
(an empty cluster keeps its centroid). -/
def centroidUpdate (d : Nat) (pts : List (List ℚ)) (labels : List Nat)
    (cs : List (List ℚ)) : List (List ℚ) :=
  (List.range cs.length).map fun i =>
    let ms := membersOf pts labels i
    if ms.isEmpty then cs.getD i [] else meanVec d ms

/-- Lloyd iteration with fuel (`max_iter`, sklearn default 300), stopping
early once the centroids are stable. -/
def lloyd (w : List ℚ) (d : Nat) (pts : List (List ℚ)) :
    Nat → List (List ℚ) → List (List ℚ)
  | 0, cs => cs
  | fuel + 1, cs =>
    let cs2 := centroidUpdate d pts (assignLabels w cs pts) cs
    if cs2 = cs then cs else lloyd w d pts fuel cs2

/-- Sum of squared distances of every point to its assigned centroid. -/
def inertia (w : List ℚ) (cs pts : List (List ℚ)) (labels : List Nat) : ℚ :=
  ((pts.zip labels).map fun pl => sqDistW w pl.1 (cs.getD pl.2 [])).sum

/-- A linear congruential step: the deterministic pseudo-random source of the
model.  sklearn derives its initialization randomness from a Mersenne twister
seeded with `random_state`; the model abstracts that stream by an LCG — all
that matters to the verified claims is that it is a pure function of the seed. -/
def lcg (s : Nat) : Nat := (s * 1103515245 + 12345) % 2 ^ 31

/-- Seeded choice of `k` initial centroid indices among `n` points (model of
the seeded k-means++ / random initialization: a pure function of the seed). -/
def pickIndices : Nat → Nat → Nat → List Nat
  | _, 0, _ => []
  | seed, k + 1, n => let s := lcg seed; s % n :: pickIndices s k n

/-- One full K-Means run from one seed: initialize, iterate Lloyd steps,
return the final labels together with their inertia. -/
def singleRun (w : List ℚ) (d : Nat) (pts : List (List ℚ)) (k seed : Nat) :
    List Nat × ℚ :=
  let init := (pickIndices seed k pts.length).map fun i => pts.getD i []
  let cs := lloyd w d pts 300 init
  let labels := assignLabels w cs pts
  (labels, inertia w cs pts labels)

/-- The `n_init` per-restart seeds derived from the base seed. -/
def runSeeds : Nat → Nat → List Nat
  | 0, _ => []
  | n + 1, s => let s2 := lcg s; s2 :: runSeeds n s2

/-- The `n_init` independent K-Means restarts. -/
def kmeansRuns (w : List ℚ) (d : Nat) (pts : List (List ℚ))
    (k seed nInit : Nat) : List (List Nat × ℚ) :=
  (runSeeds nInit seed).map (singleRun w d pts k)

/-- Keep the restart with the lowest inertia (first one on ties). -/
def bestRun : List (List Nat × ℚ) → List Nat × ℚ
  | [] => ([], 0)
  | r :: rs => rs.foldl (fun b x => if x.2 < b.2 then x else b) r

/-- `KMeans(n_clusters=k, random_state=random_state, n_init=n_init).fit_predict`:
when `random_state` is a fixed integer the ambient `entropy` (what the library
would draw from the process-global RNG for `random_state=None`) is ignored. -/
def fit_predict (entropy : Nat) (random_state : Option Nat) (n_init k : Nat)
    (w : List ℚ) (d : Nat) (pts : List (List ℚ)) : List Nat :=
  (bestRun (kmeansRuns w d pts k (random_state.getD entropy) n_init)).1

/-- Outcome of the clustering panel (app.py lines 277-320): either the
insufficient-data error of line 280, or a per-city cluster assignment plus
the per-cluster label map. -/
inductive ClusterResult where
  | insufficientData : ClusterResult
  | ok : List (String × Nat) → List (Nat × String) → ClusterResult
deriving DecidableEq, Repr

/-- Whether the panel produced a clustering (no error). -/
def ClusterResult.isOk : ClusterResult → Bool
  | .ok _ _ => true
  | _ => false

/-- The per-city assignment produced by the panel (empty on error). -/
def ClusterResult.assignment : ClusterResult → List (String × Nat)
  | .ok a _ => a
  | _ => []

/-- app.py lines 273-320, the whole Cluster-and-Label pipeline: resolve the
requested features against the pivot columns, aggregate per-city means and
drop incomplete cities, error out if nothing remains, otherwise standardize,
run the seeded K-Means (`random_state=42, n_init=10`), and label each
occupied cluster through `get_cluster_name` applied to its unstandardized
centroid. -/
def runClusterPanel (entropy : Nat) (tbl : List PivotRow) (n_clusters : Nat) :
    ClusterResult :=
  let ml_features := resolvedFeatures tbl
  let df_city_features := retainedCities tbl ml_features
  if df_city_features.isEmpty then .insufficientData
  else
    let pts := df_city_features.map Prod.snd
    let d := ml_features.length
    let w := scaleWeights pts d
    let labels := fit_predict entropy (some 42) 10 n_clusters w d pts
    let assignment := (df_city_features.map Prod.fst).zip labels
    let presentIds := (List.range n_clusters).filter fun i => decide (i ∈ labels)
    let label_map := presentIds.map fun i =>
      (i, get_cluster_name (ml_features.zip (meanVec d (membersOf pts labels i))))
    .ok assignment label_map

/- ## Concrete sample inputs used by witnesses and counterexamples -/

/-- A wide row of the cleaned CSV, hour 3. -/
def sampleWideA : WideRow := ⟨20251206, 3, "AQI", [("北京", some 64), ("上海", some 28)]⟩

/-- A wide row of the cleaned CSV, hour 4. -/
def sampleWideB : WideRow := ⟨20251206, 4, "AQI", [("北京", some 70), ("上海", some 30)]⟩

/-- The city columns of the sample wide table. -/
def sampleCityCols : List String := ["北京", "上海"]

/-- A pivoted table on which only 2 of the requested clustering features
resolve (columns AQI and PM2.5 only). -/
def tblTwoFeatures : List PivotRow :=
  [⟨some ⟨2025, 12, 6, 0⟩, "北京", [("AQI", some 10), ("PM2.5", some 5)]⟩,
   ⟨some ⟨2025, 12, 6, 0⟩, "上海", [("AQI", some 200), ("PM2.5", some 150)]⟩]

/-- A pivoted table with no AQI column at all. -/
def tblNoAqi : List PivotRow :=
  [⟨some ⟨2025, 12, 6, 0⟩, "西安", [("PM10", some 100), ("PM2.5", some 40)]⟩,
   ⟨some ⟨2025, 12, 6, 1⟩, "西安", [("PM10", some 160), ("PM2.5", some 50)]⟩]

/-- A pivoted table in which city 乙 has no PM2.5 reading at all (its
aggregated feature row is incomplete), while 甲 and 丙 are complete. -/
def tblMissingFeature : List PivotRow :=
  [⟨some ⟨2025, 12, 6, 0⟩, "甲", [("AQI", some 10), ("PM2.5", some 5)]⟩,
   ⟨some ⟨2025, 12, 6, 0⟩, "乙", [("AQI", some 50), ("PM2.5", none)]⟩,
   ⟨some ⟨2025, 12, 6, 0⟩, "丙", [("AQI", some 100), ("PM2.5", some 80)]⟩]

/- ## Theorems -/

section ClaimProofs

attribute [local semireducible] Rat.add Rat.mul Rat.inv Rat.sub

/-- The tier field of the advisory in last-matching-threshold normal form. -/
theorem advise_tier_eq (aqi pm10 pm25 : ℚ) :
    (advise aqi pm10 pm25).tier =
      if 300 < aqi then 5 else if 200 < aqi then 4 else if 150 < aqi then 3
      else if 100 < aqi then 2 else if 50 < aqi then 1 else 0 := by
  simp only [advise]
  split_ifs <;> rfl

/-- The color field of the advisory in last-matching-threshold normal form. -/
theorem advise_color_eq (aqi pm10 pm25 : ℚ) :
    (advise aqi pm10 pm25).color =
      if 300 < aqi then "red" else if 200 < aqi then "red" else if 150 < aqi then "red"
      else if 100 < aqi then "orange" else if 50 < aqi then "orange" else "green" := by
  simp only [advise]
  split_ifs <;> rfl

/-- Claim C3: the advisory tier is a non-decreasing function of AQI with the
last matching threshold winning (AQI ≤ 50 tier 0, then >50, >100, >150,
>200, >300 give tiers 1-5); the inputs 10, 60, 120, 170, 250, 350 produce
tiers 0-5; the color class is green ("ok") exactly on tier 0, orange
("caution") exactly on tiers 1-2 and red ("danger") exactly on tiers 3-5. -/
theorem c3_advisory_tiers :
    (∀ a b p1 p2 p3 p4 : ℚ, a ≤ b → (advise a p1 p2).tier ≤ (advise b p3 p4).tier)
    ∧ (∀ aqi p1 p2 : ℚ,
        ((advise aqi p1 p2).tier = 0 ↔ aqi ≤ 50)
        ∧ ((advise aqi p1 p2).tier = 1 ↔ 50 < aqi ∧ aqi ≤ 100)
        ∧ ((advise aqi p1 p2).tier = 2 ↔ 100 < aqi ∧ aqi ≤ 150)
        ∧ ((advise aqi p1 p2).tier = 3 ↔ 150 < aqi ∧ aqi ≤ 200)
        ∧ ((advise aqi p1 p2).tier = 4 ↔ 200 < aqi ∧ aqi ≤ 300)
        ∧ ((advise aqi p1 p2).tier = 5 ↔ 300 < aqi)
        ∧ ((advise aqi p1 p2).color = "green" ↔ (advise aqi p1 p2).tier = 0)
        ∧ ((advise aqi p1 p2).color = "orange" ↔
            (advise aqi p1 p2).tier = 1 ∨ (advise aqi p1 p2).tier = 2)
        ∧ ((advise aqi p1 p2).color = "red" ↔ 3 ≤ (advise aqi p1 p2).tier))
    ∧ ((advise 10 0 0).tier = 0 ∧ (advise 60 0 0).tier = 1
        ∧ (advise 120 0 0).tier = 2 ∧ (advise 170 0 0).tier = 3
        ∧ (advise 250 0 0).tier = 4 ∧ (advise 350 0 0).tier = 5) := by
  refine ⟨?_, ?_, by decide, by decide, by decide, by decide, by decide, by decide⟩
  · intro a b p1 p2 p3 p4 hab
    rw [advise_tier_eq, advise_tier_eq]
    split_ifs <;> first | omega | (exfalso; linarith)
  · intro aqi p1 p2
    rw [advise_tier_eq, advise_color_eq]
    split_ifs <;> simp_all <;> (repeat' constructor) <;> (try intro) <;> linarith

/-- Witness for C3 at a concrete pair of AQI values. -/
theorem c3_witness : (advise 10 0 0).tier ≤ (advise 60 0 0).tier :=
  c3_advisory_tiers.1 10 60 0 0 0 0 (by norm_num)

/-- Claim C4: the dust-storm flag holds iff PM10 > 150 and
PM10 / (PM2.5 + 1) > 2, independently of the AQI tier; at the boundary
PM10 = 150, PM2.5 = 74 (ratio exactly 2) there is no flag, while
PM10 = 151, PM2.5 = 74 raises it. -/
theorem c4_dust_heuristic :
    (∀ aqi pm10 pm25 : ℚ,
      ((advise aqi pm10 pm25).dust = true ↔ 150 < pm10 ∧ 2 < pm10 / (pm25 + 1)))
    ∧ (advise 0 150 74).dust = false
    ∧ (advise 0 151 74).dust = true
    ∧ (150 : ℚ) / (74 + 1) = 2 := by
  refine ⟨?_, by decide, by decide, by norm_num⟩
  intro aqi pm10 pm25
  simp [advise]

/-- Claim C2: `get_cluster_name` is first-match-wins — every centroid row
with AQI mean below the pristine cutoff 35 maps to the pristine category,
even when a later rule (such as the SO2 > 25 industrial rule) also holds;
in particular AQI = 30 with SO2 = 30 is labeled pristine. -/
theorem c2_label_first_match :
    (∀ row : List (String × ℚ), (row.lookup "AQI").getD 0 < 35 →
        get_cluster_name row = "🍃 极优生态型")
    ∧ get_cluster_name [("AQI", 30), ("SO2", 30)] = "🍃 极优生态型"
    ∧ (25 : ℚ) < 30 := by
  refine ⟨?_, by decide, by norm_num⟩
  intro row h
  simp only [get_cluster_name]
  rw [if_pos h]

/-- Witness for C2: the synthetic centroid AQI = 30, SO2 = 30. -/
theorem c2_witness :
    get_cluster_name [("AQI", 30), ("SO2", 30)] = "🍃 极优生态型" :=
  c2_label_first_match.1 [("AQI", 30), ("SO2", 30)] (by decide)

/-- Claim C7: every long record's timestamp is built from its wide row by
concatenating the date with the zero-padded 2-digit hour and parsing as
YYYYMMDDHH; date 20251206 with hours 3 and 23 give 2025-12-06 03:00 and
2025-12-06 23:00. -/
theorem c7_timestamp_construction :
    (∀ (cityCols : List String) (w : WideRow) (lr : LongRecord),
        lr ∈ meltRow cityCols w → lr.timestamp = makeTimestamp w.date w.hour)
    ∧ makeTimestamp 20251206 3 = some ⟨2025, 12, 6, 3⟩
    ∧ makeTimestamp 20251206 23 = some ⟨2025, 12, 6, 23⟩ := by
  refine ⟨?_, by decide, by decide⟩
  intro cols w lr hmem
  simp only [meltRow, List.mem_map] at hmem
  obtain ⟨c, _, rfl⟩ := hmem
  rfl

/-- Witness for C7: a concrete hour-3 wide row. -/
theorem c7_witness :
    ((meltRow sampleCityCols sampleWideA).headD
        ⟨none, "", "", none⟩).timestamp = makeTimestamp 20251206 3 :=
  c7_timestamp_construction.1 sampleCityCols sampleWideA _ (by decide)

/-- Claim C10: `get_level` partitions AQI values into exactly six bands with
inclusive upper bounds 50, 100, 150, 200, 300; AQI = 100 falls in 良. -/
theorem c10_get_level_partition :
    (∀ aqi : ℚ,
      (get_level aqi = "优" ↔ aqi ≤ 50)
      ∧ (get_level aqi = "良" ↔ 50 < aqi ∧ aqi ≤ 100)
      ∧ (get_level aqi = "轻度" ↔ 100 < aqi ∧ aqi ≤ 150)
      ∧ (get_level aqi = "中度" ↔ 150 < aqi ∧ aqi ≤ 200)
      ∧ (get_level aqi = "重度" ↔ 200 < aqi ∧ aqi ≤ 300)
      ∧ (get_level aqi = "严重" ↔ 300 < aqi))
    ∧ get_level 100 = "良" := by
  refine ⟨fun aqi => ?_, by decide⟩
  unfold get_level
  split_ifs <;> simp_all <;> (repeat' constructor) <;> (try intro) <;> linarith

/-- A long record whose city is not among the melted columns never matches
the pivot key. -/
lemma meltRow_filter_not_mem (cols : List String) (w : WideRow)
    (ts : Option DateTime) (c ty : String) (hc : c ∉ cols) :
    (meltRow cols w).filter (keyMatch ts c ty) = [] := by
  rw [List.filter_eq_nil_iff]
  intro lr hlr
  simp only [meltRow, List.mem_map] at hlr
  obtain ⟨c0, hc0, rfl⟩ := hlr
  simp only [keyMatch, Bool.and_eq_true, decide_eq_true_eq]
  rintro ⟨⟨-, rfl⟩, -⟩
  exact hc hc0

/-- A wide row with a different (timestamp, type) key contributes nothing to
a pivot cell's group. -/
lemma meltRow_filter_ts_ne (cols : List String) (w : WideRow)
    (ts : Option DateTime) (c ty : String)
    (h : ¬(makeTimestamp w.date w.hour = ts ∧ w.type = ty)) :
    (meltRow cols w).filter (keyMatch ts c ty) = [] := by
  rw [List.filter_eq_nil_iff]
  intro lr hlr
  simp only [meltRow, List.mem_map] at hlr
  obtain ⟨c0, hc0, rfl⟩ := hlr
  simp only [keyMatch, Bool.and_eq_true, decide_eq_true_eq]
  rintro ⟨⟨h1, -⟩, h2⟩
  exact h ⟨h1, h2⟩

/-- Within one wide row, a city column occurs exactly once among the melted
records matching its key, carrying that row's cell value. -/
lemma meltRow_filter_mem (cols : List String) (w : WideRow) (c : String)
    (hnd : cols.Nodup) (hc : c ∈ cols) :
    (meltRow cols w).filter (keyMatch (makeTimestamp w.date w.hour) c w.type)
      = [⟨makeTimestamp w.date w.hour, c, w.type, (w.cells.lookup c).join⟩] := by
  induction cols with
  | nil => cases hc
  | cons c0 cs ih =>
    rw [List.nodup_cons] at hnd
    have hstep : meltRow (c0 :: cs) w
        = ⟨makeTimestamp w.date w.hour, c0, w.type, (w.cells.lookup c0).join⟩
          :: meltRow cs w := by
      simp [meltRow]
    rw [hstep, List.filter_cons]
    by_cases hc0 : c0 = c
    · subst hc0
      have hkey : keyMatch (makeTimestamp w.date w.hour) c0 w.type
          ⟨makeTimestamp w.date w.hour, c0, w.type, (w.cells.lookup c0).join⟩
            = true := by
        simp [keyMatch]
      rw [if_pos hkey, meltRow_filter_not_mem cs w _ c0 w.type hnd.1]
    · rw [if_neg (by simp [keyMatch, hc0])]
      exact ih hnd.2 ((List.mem_cons.mp hc).resolve_left fun h => hc0 h.symm)

/-- Over the whole melted table, a (timestamp, city, type) key coming from a
wide row selects exactly the one record carrying that row's cell for the
city — provided the wide rows have pairwise distinct (timestamp, type) keys. -/
lemma melt_filter_eq (cityCols : List String) (rows : List WideRow)
    (w : WideRow) (c : String)
    (hkeys : (rows.map fun r => (makeTimestamp r.date r.hour, r.type)).Nodup)
    (hcols : cityCols.Nodup) (hw : w ∈ rows) (hc : c ∈ cityCols) :
    (melt cityCols rows).filter (keyMatch (makeTimestamp w.date w.hour) c w.type)
      = [⟨makeTimestamp w.date w.hour, c, w.type, (w.cells.lookup c).join⟩] := by
  induction rows with
  | nil => cases hw
  | cons r rs ih =>
    rw [List.map_cons, List.nodup_cons] at hkeys
    have hmelt : melt cityCols (r :: rs) = meltRow cityCols r ++ melt cityCols rs := by
      simp [melt]
    rw [hmelt, List.filter_append]
    rcases List.mem_cons.mp hw with rfl | hw2
    · rw [meltRow_filter_mem cityCols w c hcols hc]
      have htail : (melt cityCols rs).filter
          (keyMatch (makeTimestamp w.date w.hour) c w.type) = [] := by
        rw [List.filter_eq_nil_iff]
        intro lr hlr
        obtain ⟨r2, hr2, hlr2⟩ := List.mem_flatMap.mp hlr
        simp only [meltRow, List.mem_map] at hlr2
        obtain ⟨c0, hc0, rfl⟩ := hlr2
        simp only [keyMatch, Bool.and_eq_true, decide_eq_true_eq]
        rintro ⟨⟨h1, -⟩, h2⟩
        exact hkeys.1 (by
          rw [← h1, ← h2]
          exact List.mem_map_of_mem _ hr2)
      rw [htail]
      simp
    · have hne : ¬(makeTimestamp r.date r.hour = makeTimestamp w.date w.hour
          ∧ r.type = w.type) := by
        rintro ⟨h1, h2⟩
        exact hkeys.1 (by
          rw [h1, h2]
          exact List.mem_map_of_mem _ hw2)
      rw [meltRow_filter_ts_ne cityCols r _ c _ hne, List.nil_append]
      exact ih hkeys.2 hw2

/-- Claim C6: the reshape is lossless and unambiguous.  When the wide rows
have pairwise distinct (timestamp, type) keys (the input invariant: one row
per date/hour/measurement-type) and the city columns are distinct, every
cell of every wide row appears exactly once in the long table under its
(timestamp, city, type) key, that unique record carries the cell's value,
and a present value reappears exactly as the corresponding pivoted cell. -/
theorem c6_reshape_lossless (cityCols : List String) (rows : List WideRow)
    (w : WideRow) (c : String)
    (hkeys : (rows.map fun r => (makeTimestamp r.date r.hour, r.type)).Nodup)
    (hcols : cityCols.Nodup) (hw : w ∈ rows) (hc : c ∈ cityCols) :
    (melt cityCols rows).countP
        (keyMatch (makeTimestamp w.date w.hour) c w.type) = 1
    ∧ (∀ lr ∈ melt cityCols rows,
        keyMatch (makeTimestamp w.date w.hour) c w.type lr = true →
        lr.value = (w.cells.lookup c).join)
    ∧ ∀ v, (w.cells.lookup c).join = some v →
        pivotCell (melt cityCols rows) (makeTimestamp w.date w.hour) c w.type
          = some v := by
  have hfilter := melt_filter_eq cityCols rows w c hkeys hcols hw hc
  refine ⟨?_, ?_, ?_⟩
  · rw [List.countP_eq_length_filter, hfilter]
    rfl
  · intro lr hmem hkey
    have hmem2 : lr ∈ (melt cityCols rows).filter
        (keyMatch (makeTimestamp w.date w.hour) c w.type) :=
      List.mem_filter.mpr ⟨hmem, hkey⟩
    rw [hfilter] at hmem2
    rcases List.mem_singleton.mp hmem2 with rfl
    rfl
  · intro v hv
    unfold pivotCell
    rw [hfilter]
    have hv2 : List.lookup c w.cells = some (some v) := by
      rcases hlookup : List.lookup c w.cells with _ | x
      · rw [hlookup] at hv
        cases hv
      · rw [hlookup] at hv
        cases x with
        | none => cases hv
        | some y =>
          have : y = v := Option.some_injective ℚ (by simpa using hv)
          rw [this]
    simp [hv2]

/-- Witness for C6: a concrete two-row wide table with two city columns. -/
theorem c6_witness :
    (melt sampleCityCols [sampleWideA, sampleWideB]).countP
        (keyMatch (makeTimestamp 20251206 3) "北京" "AQI") = 1
    ∧ pivotCell (melt sampleCityCols [sampleWideA, sampleWideB])
        (makeTimestamp 20251206 3) "北京" "AQI" = some 64 := by
  have h := c6_reshape_lossless sampleCityCols [sampleWideA, sampleWideB]
    sampleWideA "北京" (by decide) (by decide) (by decide) (by decide)
  exact ⟨h.1, h.2.2 64 (by decide)⟩

/-- Counterexample to claim C5: in `tblNoAqi` the AQI column is absent from
西安's rows, so the latest row has no AQI reading — yet the advisory engine
reads the AQI as 0: the missing reading IS substituted with the
`Series.get` default 0 (app.py line 89). -/
theorem c5_counterexample :
    ((latestRow tblNoAqi "西安").map fun r => r.cells.lookup "AQI") = some none
    ∧ curAqi tblNoAqi "西安" = some (some 0) := by decide

/-- Amended claim C5: the advisory engine reads the latest row through
`Series.get` with default 0, so a reading whose column is absent from the
pivoted table is substituted with 0 (not treated as unavailable); only a
present-but-NaN cell propagates as missing. -/
theorem c5_default_zero (tbl : List PivotRow) (city : String) (r : PivotRow)
    (h : latestRow tbl city = some r) :
    curAqi tbl city = some (seriesGet r "AQI" 0)
    ∧ (r.cells.lookup "AQI" = none → seriesGet r "AQI" 0 = some 0)
    ∧ (r.cells.lookup "AQI" = some none → seriesGet r "AQI" 0 = none) := by
  refine ⟨by simp [curAqi, h], fun h2 => ?_, fun h2 => ?_⟩
  · unfold seriesGet
    rw [h2]
  · unfold seriesGet
    rw [h2]

/-- Witness for C5 (amended): the latest 西安 row of `tblNoAqi`. -/
theorem c5_witness :
    curAqi tblNoAqi "西安"
      = some (seriesGet ⟨some ⟨2025, 12, 6, 1⟩, "西安",
          [("PM10", some 160), ("PM2.5", some 50)]⟩ "AQI" 0) :=
  (c5_default_zero tblNoAqi "西安" _ (by decide)).1

/-- Counterexample to claim C1: on `tblTwoFeatures` only 2 of the requested
clustering features resolve against the pivot columns, yet the pipeline
signals no error at all and produces a full cluster assignment and label
map (the code has no minimum-feature check). -/
theorem c1_counterexample :
    (resolvedFeatures tblTwoFeatures).length = 2
    ∧ runClusterPanel 0 tblTwoFeatures 2
        = ClusterResult.ok [("北京", 0), ("上海", 1)]
            [(0, "🍃 极优生态型"), (1, "🟣 重度雾霾型")] := by decide

/-- Amended claim C1: the pipeline performs no minimum-feature-count check —
it clusters on however many requested features resolve; the only error it
signals is the insufficient-data error, raised exactly when no city
survives the missing-value drop. -/
theorem c1_no_feature_check (e : Nat) (tbl : List PivotRow) (k : Nat) :
    (runClusterPanel e tbl k = ClusterResult.insufficientData
      ↔ retainedCities tbl (resolvedFeatures tbl) = [])
    ∧ (retainedCities tbl (resolvedFeatures tbl) ≠ [] →
        (runClusterPanel e tbl k).isOk = true) := by
  by_cases h : (retainedCities tbl (resolvedFeatures tbl)).isEmpty
  · have hnil : retainedCities tbl (resolvedFeatures tbl) = [] := by
      simpa using h
    have hrun : runClusterPanel e tbl k = ClusterResult.insufficientData := by
      simp [runClusterPanel, h]
    exact ⟨by simp [hrun, hnil], fun hne => absurd hnil hne⟩
  · have hrun : (runClusterPanel e tbl k).isOk = true := by
      simp [runClusterPanel, h, ClusterResult.isOk]
    refine ⟨⟨fun heq => ?_, fun hnil => ?_⟩, fun hne => hrun⟩
    · rw [heq] at hrun
      simp [ClusterResult.isOk] at hrun
    · rw [hnil] at h
      simp at h

/-- Witness for C1 (amended): `tblTwoFeatures` retains cities, so the panel
produces a clustering. -/
theorem c1_witness : (runClusterPanel 0 tblTwoFeatures 2).isOk = true :=
  (c1_no_feature_check 0 tblTwoFeatures 2).2 (by decide)

/-- A row of optional feature means containing a missing entry fails the
dropna completeness test. -/
lemma seqOption_of_mem_none {l : List (Option ℚ)} (h : none ∈ l) :
    seqOption l = none := by
  induction l with
  | nil => cases h
  | cons x xs ih =>
    cases x with
    | none => rfl
    | some v =>
      have h2 : (none : Option ℚ) ∈ xs := by
        rcases List.mem_cons.mp h with h1 | h1
        · cases h1
        · exact h1
      simp [seqOption, ih h2]

/-- A city whose aggregated feature row is incomplete is not retained. -/
lemma not_mem_retained {tbl : List PivotRow} {feats : List String} {c : String}
    (h : seqOption (cityVector tbl feats c) = none) :
    c ∉ (retainedCities tbl feats).map Prod.fst := by
  intro hmem
  rw [List.mem_map] at hmem
  obtain ⟨p, hp, hfst⟩ := hmem
  rw [retainedCities, List.mem_filterMap] at hp
  obtain ⟨c3, _, hc3⟩ := hp
  rw [Option.map_eq_some'] at hc3
  obtain ⟨vec2, hseq, heq⟩ := hc3
  rw [← heq] at hfst
  rw [← hfst] at h
  rw [h] at hseq
  cases hseq

/-- The first components of a zip are among the first list. -/
lemma mem_of_mem_zip_fst {x : String} {a : List String} {b : List Nat}
    (h : x ∈ (a.zip b).map Prod.fst) : x ∈ a := by
  rw [List.mem_map] at h
  obtain ⟨p, hp, rfl⟩ := h
  exact (List.of_mem_zip hp).1

/-- The cities of the panel's assignment all come from the retained cities. -/
lemma assignment_fst_sub (e : Nat) (tbl : List PivotRow) (k : Nat) (x : String)
    (hx : x ∈ (runClusterPanel e tbl k).assignment.map Prod.fst) :
    x ∈ (retainedCities tbl (resolvedFeatures tbl)).map Prod.fst := by
  by_cases h : (retainedCities tbl (resolvedFeatures tbl)).isEmpty
  · simp [runClusterPanel, h, ClusterResult.assignment] at hx
  · simp only [runClusterPanel, h, Bool.false_eq_true, if_false,
      ClusterResult.assignment] at hx
    exact mem_of_mem_zip_fst hx

/-- Claim C8: a city with a missing value in any requested feature (its
aggregated feature row is incomplete) is excluded from the clustering input
and from the per-city assignment output; and when no city survives the drop
the pipeline signals the insufficient-data error. -/
theorem c8_missing_feature_exclusion (e : Nat) (tbl : List PivotRow) (k : Nat)
    (c : String) (h : none ∈ cityVector tbl (resolvedFeatures tbl) c) :
    (c ∉ (retainedCities tbl (resolvedFeatures tbl)).map Prod.fst
     ∧ c ∉ (runClusterPanel e tbl k).assignment.map Prod.fst)
    ∧ (retainedCities tbl (resolvedFeatures tbl) = [] →
        runClusterPanel e tbl k = ClusterResult.insufficientData) := by
  have hret := not_mem_retained (seqOption_of_mem_none h)
  refine ⟨⟨hret, fun hmem => hret (assignment_fst_sub e tbl k c hmem)⟩,
    fun hnil => ?_⟩
  simp [runClusterPanel, hnil]

/-- Witness for C8: in `tblMissingFeature` city 乙 has no PM2.5 reading, so
its aggregated row is incomplete and it is excluded from the assignment. -/
theorem c8_witness :
    "乙" ∉ (retainedCities tblMissingFeature
        (resolvedFeatures tblMissingFeature)).map Prod.fst
    ∧ "乙" ∉ (runClusterPanel 0 tblMissingFeature 2).assignment.map Prod.fst :=
  (c8_missing_feature_exclusion 0 tblMissingFeature 2 "乙" (by decide)).1

/-- The restart-seed list has exactly the requested length. -/
lemma runSeeds_length (n s : Nat) : (runSeeds n s).length = n := by
  induction n generalizing s with
  | zero => rfl
  | succ n ih => simp [runSeeds, ih]

/-- The running minimum of the restart fold is below the seed value and every
list element. -/
lemma bestRun_foldl_le (xs : List (List Nat × ℚ)) :
    ∀ b : List Nat × ℚ,
      (xs.foldl (fun b x => if x.2 < b.2 then x else b) b).2 ≤ b.2
      ∧ ∀ r ∈ xs, (xs.foldl (fun b x => if x.2 < b.2 then x else b) b).2 ≤ r.2 := by
  induction xs with
  | nil => exact fun b => ⟨le_refl _, by simp⟩
  | cons x xs ih =>
    intro b
    have hb : (if x.2 < b.2 then x else b).2 ≤ b.2
        ∧ (if x.2 < b.2 then x else b).2 ≤ x.2 := by
      by_cases hx : x.2 < b.2
      · rw [if_pos hx]
        exact ⟨le_of_lt hx, le_refl _⟩
      · rw [if_neg hx]
        exact ⟨le_refl _, le_of_not_lt hx⟩
    obtain ⟨h1, h2⟩ := ih (if x.2 < b.2 then x else b)
    refine ⟨le_trans h1 hb.1, fun r hr => ?_⟩
    rcases List.mem_cons.mp hr with rfl | hr2
    · exact le_trans h1 hb.2
    · exact h2 r hr2

/-- The kept restart has the lowest inertia of all restarts. -/
lemma bestRun_le {rs : List (List Nat × ℚ)} {r : List Nat × ℚ} (h : r ∈ rs) :
    (bestRun rs).2 ≤ r.2 := by
  cases rs with
  | nil => cases h
  | cons x xs =>
    rcases List.mem_cons.mp h with rfl | h2
    · exact (bestRun_foldl_le xs r).1
    · exact (bestRun_foldl_le xs x).2 r h2

/-- Claim C9: the clustering pipeline is deterministic across runs — the
ambient entropy (what an unseeded run would consume) never influences the
result because `random_state=42` is fixed; exactly `n_init = 10`
initialization restarts are performed; and the kept result has the lowest
inertia among all restarts. -/
theorem c9_clustering_deterministic :
    (∀ (e1 e2 : Nat) (tbl : List PivotRow) (k : Nat),
        runClusterPanel e1 tbl k = runClusterPanel e2 tbl k)
    ∧ (∀ (w : List ℚ) (d : Nat) (pts : List (List ℚ)) (k s : Nat),
        (kmeansRuns w d pts k s 10).length = 10)
    ∧ (∀ (w : List ℚ) (d : Nat) (pts : List (List ℚ)) (k s : Nat)
        (r : List Nat × ℚ), r ∈ kmeansRuns w d pts k s 10 →
        (bestRun (kmeansRuns w d pts k s 10)).2 ≤ r.2) :=
  ⟨fun e1 e2 tbl k => rfl,
   fun w d pts k s => by simp [kmeansRuns, runSeeds_length],
   fun w d pts k s r hr => bestRun_le hr⟩

/-- Witness for C9: a concrete run set on two 1-dimensional points. -/
theorem c9_witness :
    runClusterPanel 0 tblTwoFeatures 3 = runClusterPanel 7 tblTwoFeatures 3
    ∧ (bestRun (kmeansRuns [1] 1 [[0], [10]] 2 42 10)).2
        ≤ ((kmeansRuns [1] 1 [[0], [10]] 2 42 10).headD ([], 0)).2 :=
  ⟨c9_clustering_deterministic.1 0 7 tblTwoFeatures 3,
   c9_clustering_deterministic.2.2 [1] 1 [[0], [10]] 2 42 _ (by decide)⟩

end ClaimProofs
